import Mathlib

/-!
Shallow embedding of the go-sarah LINE adapter (adapter.go) and proofs about
its event-normalization and reply-dispatch logic.

The embedding follows the current version of adapter.go: `SourceToSenderKey`,
`EventToUserInput`, `defaultEventHandler`, `Adapter.SendMessage`'s shape
resolution, `NewAdapter` with functional options, and the input structs with
their `Message` accessors.  External SDK values (the linebot event source and
event type string constants, `linebot.NewTextMessage`) are embedded with the
string values the SDK defines.  Go strings are Lean `String`, `time.Time` is a
`Nat` tick, fallible Go functions returning `(T, error)` become `Except`.
-/

namespace Line

/-- Character predicate of Go's unicode.IsSpace, used by strings.TrimSpace:
the Unicode White_Space code points. -/
def goIsSpace (c : Char) : Bool :=
  let n := c.toNat
  n == 0x9 || n == 0xA || n == 0xB || n == 0xC || n == 0xD || n == 0x20 ||
    n == 0x85 || n == 0xA0 || n == 0x1680 ||
    (decide (0x2000 ≤ n) && decide (n ≤ 0x200A)) ||
    n == 0x2028 || n == 0x2029 || n == 0x202F || n == 0x205F || n == 0x3000

/-- Go strings.TrimSpace: drop leading and trailing white space. -/
def TrimSpace (s : String) : String :=
  String.mk (((s.data.dropWhile goIsSpace).reverse.dropWhile goIsSpace).reverse)

/-- linebot.EventSourceTypeUser. -/
def EventSourceTypeUser : String := "user"

/-- linebot.EventSourceTypeRoom. -/
def EventSourceTypeRoom : String := "room"

/-- linebot.EventSourceTypeGroup. -/
def EventSourceTypeGroup : String := "group"

/-- linebot.EventTypeMessage. -/
def EventTypeMessage : String := "message"

/-- linebot.EventTypePostback. -/
def EventTypePostback : String := "postback"

/-- linebot.MessageTypeImage. -/
def MessageTypeImage : String := "image"

/-- linebot.MessageTypeVideo. -/
def MessageTypeVideo : String := "video"

/-- linebot.MessageTypeAudio. -/
def MessageTypeAudio : String := "audio"

/-- linebot.EventSource: the webhook event's source object.  The Go field
`Type` is named `sourceType` here because `Type` is reserved in Lean. -/
structure EventSource where
  sourceType : String
  UserID : String
  RoomID : String
  GroupID : String

/-- Errors produced by the normalization path of adapter.go, one constructor
per distinct error the Go code can return. -/
inductive ConversionError where
  /-- ErrUnrecognizedEventSource. -/
  | unrecognizedEventSource
  /-- fmt.Errorf of the unknown message type branch. -/
  | unknownMessageType
  /-- fmt.Errorf of the final branch: the event can not be treated as user input. -/
  | notUserInput
deriving DecidableEq

/-- The err.Error() string of each ConversionError, as adapter.go formats it
(the Go %T verb prints the runtime type, elided here). -/
def ConversionError.message : ConversionError → String
  | .unrecognizedEventSource => "unrecognized event source type is given"
  | .unknownMessageType => "unknown message type"
  | .notUserInput => "can not be treated as user input"

/-- SourceToSenderKey of adapter.go: switch on the source type string and
build the "kind|id" sender key with fmt.Sprintf. -/
def SourceToSenderKey (s : EventSource) : Except ConversionError String :=
  if s.sourceType = EventSourceTypeUser then
    .ok ("user|" ++ s.UserID)
  else if s.sourceType = EventSourceTypeRoom then
    .ok ("room|" ++ s.RoomID)
  else if s.sourceType = EventSourceTypeGroup then
    .ok ("group|" ++ s.GroupID)
  else
    .error .unrecognizedEventSource

/-- TLS block of Config. -/
structure TLSConfig where
  CertFile : String
  KeyFile : String

/-- Config of adapter.go.  ClientOptions are opaque pass-through values for
linebot.New and carry no behavior of their own in this embedding. -/
structure Config where
  ChannelToken : String
  ChannelSecret : String
  HelpCommand : String
  AbortCommand : String
  Port : Nat
  Endpoint : String
  TLS : Option TLSConfig

/-- NewConfig of adapter.go: default settings. -/
def NewConfig : Config :=
  { ChannelToken := ""
    ChannelSecret := ""
    HelpCommand := ".help"
    AbortCommand := ".abort"
    Port := 8080
    Endpoint := "/callback"
    TLS := none }

/-- The linebot.Message interface value held by a message event, one
constructor per concrete message type that EventToUserInput switches on.
`unknownMessage` stands for every other linebot message type. -/
inductive LineMessage where
  | textMessage (ID : String) (text : String)
  | imageMessage (ID : String)
  | videoMessage (ID : String)
  | audioMessage (ID : String)
  | locationMessage (ID : String) (title : String) (address : String)
      (latitude : Float) (longitude : Float)
  | stickerMessage (ID : String) (packageID : String) (stickerID : String)
  | unknownMessage

/-- PostbackParams of adapter.go (same fields as the SDK's params object). -/
structure PostbackParams where
  Date : String
  Time : String
  Datetime : String

/-- linebot.Postback carried by a postback event. -/
structure Postback where
  Data : String
  Params : Option PostbackParams

/-- linebot.Event: the fields adapter.go reads.  The Go field `Type` is named
`eventType` here. -/
structure Event where
  eventType : String
  message : LineMessage
  postback : Postback
  replyToken : String
  timestamp : Nat
  source : EventSource

/-- TextInput of adapter.go. -/
structure TextInput where
  ID : String
  sourceType : String
  senderKey : String
  text : String
  replyToken : String
  timestamp : Nat

/-- TextInput.Message: returns the sent text. -/
def TextInput.Message (input : TextInput) : String :=
  input.text

/-- TextInput.SenderKey. -/
def TextInput.SenderKey (input : TextInput) : String :=
  input.senderKey

/-- FileInput of adapter.go.  The Go field `Type` (one of MessageTypeImage,
MessageTypeVideo, MessageTypeAudio) is named `fileType` here. -/
structure FileInput where
  fileType : String
  ID : String
  sourceType : String
  senderKey : String
  replyToken : String
  timestamp : Nat

/-- FileInput.Message: returns the sent message, which is empty in this case. -/
def FileInput.Message (_ : FileInput) : String :=
  ""

/-- Location of adapter.go. -/
structure Location where
  Title : String
  Address : String
  Latitude : Float
  Longitude : Float

/-- LocationInput of adapter.go. -/
structure LocationInput where
  ID : String
  location : Location
  sourceType : String
  senderKey : String
  replyToken : String
  timestamp : Nat

/-- LocationInput.Message: returns the location's title. -/
def LocationInput.Message (input : LocationInput) : String :=
  input.location.Title

/-- StickerInput of adapter.go. -/
structure StickerInput where
  ID : String
  PackageID : String
  StickerID : String
  sourceType : String
  senderKey : String
  replyToken : String
  timestamp : Nat

/-- StickerInput.Message: returns the sent message, which is empty in this case. -/
def StickerInput.Message (_ : StickerInput) : String :=
  ""

/-- PostbackEvent of adapter.go. -/
structure PostbackEvent where
  params : Option PostbackParams
  sourceType : String
  senderKey : String
  data : String
  replyToken : String
  timestamp : Nat

/-- PostbackEvent.Message: returns the raw postback data string. -/
def PostbackEvent.Message (input : PostbackEvent) : String :=
  input.data

/-- A sarah.Input value as produced by this adapter: one of the adapter's
input structs, or a sarah help/abort wrapper around an input. -/
inductive Input where
  | text (input : TextInput)
  | file (input : FileInput)
  | location (input : LocationInput)
  | sticker (input : StickerInput)
  | postback (input : PostbackEvent)
  | help (input : Input)
  | abort (input : Input)

/-- sarah.NewHelpInput: wrap an input as a help signal. -/
def NewHelpInput (input : Input) : Input :=
  .help input

/-- sarah.NewAbortInput: wrap an input as an abort signal. -/
def NewAbortInput (input : Input) : Input :=
  .abort input

/-- EventToUserInput of adapter.go: convert a linebot event to a sarah.Input
or fail.  The sender key is computed first and its error returned as is; a
message event branches on the message type; a postback event builds a
PostbackEvent; text and postback inputs are compared (after TrimSpace)
against the configured help and abort commands. -/
def EventToUserInput (config : Config) (event : Event) : Except ConversionError Input :=
  let sourceType := event.source.sourceType
  match SourceToSenderKey event.source with
  | .error err => .error err
  | .ok senderKey =>
    if event.eventType = EventTypeMessage then
      match event.message with
      | .textMessage id text =>
        let input : TextInput :=
          { ID := id, sourceType := sourceType, senderKey := senderKey,
            text := text, replyToken := event.replyToken, timestamp := event.timestamp }
        let trimmed := TrimSpace text
        if config.HelpCommand ≠ "" ∧ trimmed = config.HelpCommand then
          .ok (NewHelpInput (.text input))
        else if config.AbortCommand ≠ "" ∧ trimmed = config.AbortCommand then
          .ok (NewAbortInput (.text input))
        else
          .ok (.text input)
      | .imageMessage id =>
        .ok (.file
          { fileType := MessageTypeImage, ID := id, sourceType := sourceType,
            senderKey := senderKey, replyToken := event.replyToken,
            timestamp := event.timestamp })
      | .videoMessage id =>
        .ok (.file
          { fileType := MessageTypeVideo, ID := id, sourceType := sourceType,
            senderKey := senderKey, replyToken := event.replyToken,
            timestamp := event.timestamp })
      | .audioMessage id =>
        .ok (.file
          { fileType := MessageTypeAudio, ID := id, sourceType := sourceType,
            senderKey := senderKey, replyToken := event.replyToken,
            timestamp := event.timestamp })
      | .locationMessage id title address latitude longitude =>
        .ok (.location
          { ID := id,
            location :=
              { Title := title, Address := address,
                Latitude := latitude, Longitude := longitude },
            sourceType := sourceType, senderKey := senderKey,
            replyToken := event.replyToken, timestamp := event.timestamp })
      | .stickerMessage id packageID stickerID =>
        .ok (.sticker
          { ID := id, PackageID := packageID, StickerID := stickerID,
            sourceType := sourceType, senderKey := senderKey,
            replyToken := event.replyToken, timestamp := event.timestamp })
      | .unknownMessage =>
        .error .unknownMessageType
    else if event.eventType = EventTypePostback then
      let postback := event.postback
      let params : Option PostbackParams :=
        match postback.Params with
        | none => none
        | some p => some { Date := p.Date, Time := p.Time, Datetime := p.Datetime }
      let input : PostbackEvent :=
        { params := params, sourceType := sourceType, senderKey := senderKey,
          data := postback.Data, replyToken := event.replyToken,
          timestamp := event.timestamp }
      let trimmed := TrimSpace input.Message
      if config.HelpCommand ≠ "" ∧ trimmed = config.HelpCommand then
        .ok (NewHelpInput (.postback input))
      else if config.AbortCommand ≠ "" ∧ trimmed = config.AbortCommand then
        .ok (NewAbortInput (.postback input))
      else
        .ok (.postback input)
    else
      .error .notUserInput

/-- Whether a normalization result is a help-wrapped input. -/
def isHelpInput : Except ConversionError Input → Bool
  | .ok (.help _) => true
  | _ => false

/-- Whether a normalization result is an abort-wrapped input. -/
def isAbortInput : Except ConversionError Input → Bool
  | .ok (.abort _) => true
  | _ => false

/-- Observable effects of defaultEventHandler: the inputs passed to
enqueueInput in call order, and the log.Errorf messages emitted for
normalization failures.  The Go function has no other output channel: it
returns nothing and receives no error callback. -/
structure HandlerEffects where
  enqueued : List Input
  loggedErrors : List String

/-- defaultEventHandler of adapter.go: loop over the batch; for message and
postback events run EventToUserInput; on error log and continue; otherwise
call enqueueInput with the input.  The Go code discards enqueueInput's
return value, which the unused let binding mirrors. -/
def defaultEventHandler (config : Config) (enqueueInput : Input → Except String Unit)
    (events : List Event) : HandlerEffects :=
  match events with
  | [] => { enqueued := [], loggedErrors := [] }
  | event :: rest =>
    let tail := defaultEventHandler config enqueueInput rest
    if event.eventType = EventTypeMessage ∨ event.eventType = EventTypePostback then
      match EventToUserInput config event with
      | .error err =>
        { tail with
          loggedErrors := ("Error on event handling: " ++ err.message ++ ".") :: tail.loggedErrors }
      | .ok input =>
        let _ := enqueueInput input
        { tail with enqueued := input :: tail.enqueued }
    else
      tail

/-- A linebot.SendingMessage: a text message, or any richer message object
(whose payload this embedding does not inspect). -/
inductive SendingMessage where
  | textMessage (text : String)
  | otherMessage (tag : Nat)
deriving DecidableEq, Repr

/-- linebot.NewTextMessage. -/
def NewTextMessage (text : String) : SendingMessage :=
  .textMessage text

/-- sarah.CommandHelp: the field SendMessage reads is Instruction. -/
structure CommandHelp where
  Instruction : String

/-- The dynamic type of output.Destination(): a string reply token or
anything else (which SendMessage rejects). -/
inductive OutputDestination where
  | stringDestination (replyToken : String)
  | otherDestination

/-- The dynamic type of output.Content() as switched on by SendMessage:
a []linebot.SendingMessage, a single linebot.SendingMessage, a
*sarah.CommandHelps, or any other value. -/
inductive OutputContent where
  | sendingMessages (messages : List SendingMessage)
  | sendingMessage (message : SendingMessage)
  | commandHelps (helps : List CommandHelp)
  | otherContent

/-- A sarah.Output as read by SendMessage. -/
structure Output where
  destination : OutputDestination
  content : OutputContent

/-- Adapter.SendMessage of adapter.go, reduced to its observable effect: the
reply call it makes, as (reply token, messages), or none when the output is
dropped (non-string destination, or unexpected content shape).  The help
listing expands to one text message per command, carrying its Instruction. -/
def SendMessage (output : Output) : Option (String × List SendingMessage) :=
  match output.destination with
  | .otherDestination => none
  | .stringDestination replyToken =>
    match output.content with
    | .sendingMessages content => some (replyToken, content)
    | .sendingMessage content => some (replyToken, [content])
    | .commandHelps content =>
      some (replyToken, content.map fun commandHelp => NewTextMessage commandHelp.Instruction)
    | .otherContent => none

/-- sarah.CommandResponse: the fields set by the response constructors.  The
UserContext is kept only as present or absent. -/
structure CommandResponse where
  Content : OutputContent
  UserContext : Option Unit

/-- NewStringResponse of adapter.go: a CommandResponse whose content is a
single linebot text message and whose UserContext is nil. -/
def NewStringResponse (responseContent : String) : CommandResponse :=
  { Content := .sendingMessage (NewTextMessage responseContent)
    UserContext := none }

/-- A linebot.Client value.  Its internals are out of scope; the tag
distinguishes distinct clients. -/
structure Client where
  tag : Nat
deriving DecidableEq

/-- Adapter of adapter.go: the fields NewAdapter sets that this embedding
observes.  The client is an Option because NewAdapter starts with a nil
client which options may fill.  The event handler field is tracked only as
whether a custom handler replaced the default. -/
structure Adapter where
  client : Option Client
  customHandler : Bool
  config : Config

/-- AdapterOption of adapter.go: a fallible adapter transformer. -/
def AdapterOption : Type :=
  Adapter → Except String Adapter

/-- WithClient of adapter.go: set the adapter's client. -/
def WithClient (client : Client) : AdapterOption :=
  fun adapter => .ok { adapter with client := some client }

/-- WithEventHandler of adapter.go: replace the default event handler. -/
def WithEventHandler : AdapterOption :=
  fun adapter => .ok { adapter with customHandler := true }

/-- The option-application loop of NewAdapter: apply each option in order,
returning the first error. -/
def applyOptions (options : List AdapterOption) (adapter : Adapter) : Except String Adapter :=
  match options with
  | [] => .ok adapter
  | opt :: rest =>
    match opt adapter with
    | .error err => .error err
    | .ok adapter => applyOptions rest adapter

/-- NewAdapter of adapter.go, parameterized by the external constructor
linebot.New (a function of the channel secret and channel token).  After the
options run, linebot.New is called only when no option set the client, and
its error is wrapped with fmt.Errorf. -/
def NewAdapter (linebotNew : String → String → Except String Client)
    (config : Config) (options : List AdapterOption) : Except String Adapter :=
  let adapter : Adapter := { client := none, customHandler := false, config := config }
  match applyOptions options adapter with
  | .error err => .error err
  | .ok adapter =>
    match adapter.client with
    | some _ => .ok adapter
    | none =>
      match linebotNew config.ChannelSecret config.ChannelToken with
      | .error err => .error ("error on linebot.Client construction: " ++ err)
      | .ok client => .ok { adapter with client := some client }

/-- An event source of user kind, for concrete scenarios. -/
def userSource (uid : String) : EventSource :=
  { sourceType := EventSourceTypeUser, UserID := uid, RoomID := "", GroupID := "" }

/-- A postback object with no data, filler for non-postback events. -/
def emptyPostback : Postback :=
  { Data := "", Params := none }

/-- A message event of text kind from a user source, for concrete scenarios. -/
def mkTextEvent (uid id text replyToken : String) (ts : Nat) : Event :=
  { eventType := EventTypeMessage
    message := .textMessage id text
    postback := emptyPostback
    replyToken := replyToken
    timestamp := ts
    source := userSource uid }

/-- A configuration whose help and abort commands are the same string. -/
def cfgSameTriggers : Config :=
  { NewConfig with HelpCommand := ".x", AbortCommand := ".x" }

/-- A configuration with both trigger strings empty (checks disabled). -/
def cfgNoTriggers : Config :=
  { NewConfig with HelpCommand := "", AbortCommand := "" }

/-- Concrete batch member: a plain text message event. -/
def helloEvent : Event :=
  mkTextEvent "U1" "M1" "hello" "RT1" 1

/-- Concrete batch member: a message event of a message type EventToUserInput
does not know. -/
def unknownEvent : Event :=
  { eventType := EventTypeMessage
    message := .unknownMessage
    postback := emptyPostback
    replyToken := "RT2"
    timestamp := 2
    source := userSource "U1" }

/-- Concrete batch member: another plain text message event. -/
def worldEvent : Event :=
  mkTextEvent "U1" "M3" "world" "RT3" 3

end Line

namespace Line

/-- Claim C1: sender keys are exactly "user|id", "room|id", "group|id" for the
three recognized source kinds; determinism is immediate since the embedding is
a pure function of the source object. -/
theorem senderKey_format (uid rid gid : String) :
    SourceToSenderKey ⟨EventSourceTypeUser, uid, rid, gid⟩ = .ok ("user|" ++ uid)
    ∧ SourceToSenderKey ⟨EventSourceTypeRoom, uid, rid, gid⟩ = .ok ("room|" ++ rid)
    ∧ SourceToSenderKey ⟨EventSourceTypeGroup, uid, rid, gid⟩ = .ok ("group|" ++ gid) := by
  refine ⟨rfl, ?_, ?_⟩ <;> simp [SourceToSenderKey, EventSourceTypeUser,
    EventSourceTypeRoom, EventSourceTypeGroup]

/-- Normal form of EventToUserInput on a text message event whose sender key
resolves: the trigger comparison chain over the built TextInput. -/
theorem eventToUserInput_text_eq (config : Config) (src : EventSource) (senderKey : String)
    (pb : Postback) (id text rt : String) (ts : Nat)
    (hsk : SourceToSenderKey src = .ok senderKey) :
    EventToUserInput config
        { eventType := EventTypeMessage, message := .textMessage id text,
          postback := pb, replyToken := rt, timestamp := ts, source := src }
      = (if config.HelpCommand ≠ "" ∧ TrimSpace text = config.HelpCommand then
           .ok (NewHelpInput (.text
             { ID := id, sourceType := src.sourceType, senderKey := senderKey,
               text := text, replyToken := rt, timestamp := ts }))
         else if config.AbortCommand ≠ "" ∧ TrimSpace text = config.AbortCommand then
           .ok (NewAbortInput (.text
             { ID := id, sourceType := src.sourceType, senderKey := senderKey,
               text := text, replyToken := rt, timestamp := ts }))
         else
           .ok (.text
             { ID := id, sourceType := src.sourceType, senderKey := senderKey,
               text := text, replyToken := rt, timestamp := ts })) := by
  simp only [EventToUserInput, hsk]
  simp

/-- Normal form of EventToUserInput on a postback event whose sender key
resolves: the trigger comparison chain over the built PostbackEvent. -/
theorem eventToUserInput_postback_eq (config : Config) (src : EventSource) (senderKey : String)
    (msg : LineMessage) (pb : Postback) (rt : String) (ts : Nat)
    (hsk : SourceToSenderKey src = .ok senderKey)
    (hne : EventTypePostback ≠ EventTypeMessage) :
    EventToUserInput config
        { eventType := EventTypePostback, message := msg,
          postback := pb, replyToken := rt, timestamp := ts, source := src }
      = (if config.HelpCommand ≠ "" ∧ TrimSpace pb.Data = config.HelpCommand then
           .ok (NewHelpInput (.postback
             { params := (match pb.Params with
                 | none => none
                 | some p => some { Date := p.Date, Time := p.Time, Datetime := p.Datetime }),
               sourceType := src.sourceType, senderKey := senderKey,
               data := pb.Data, replyToken := rt, timestamp := ts }))
         else if config.AbortCommand ≠ "" ∧ TrimSpace pb.Data = config.AbortCommand then
           .ok (NewAbortInput (.postback
             { params := (match pb.Params with
                 | none => none
                 | some p => some { Date := p.Date, Time := p.Time, Datetime := p.Datetime }),
               sourceType := src.sourceType, senderKey := senderKey,
               data := pb.Data, replyToken := rt, timestamp := ts }))
         else
           .ok (.postback
             { params := (match pb.Params with
                 | none => none
                 | some p => some { Date := p.Date, Time := p.Time, Datetime := p.Datetime }),
               sourceType := src.sourceType, senderKey := senderKey,
               data := pb.Data, replyToken := rt, timestamp := ts })) := by
  simp only [EventToUserInput, hsk, hne, PostbackEvent.Message]
  simp [PostbackEvent.Message]

/-- Claim C5: a source type outside user, room, group makes
SourceToSenderKey fail with the unrecognized event source error, and
EventToUserInput propagates exactly that error with no input. -/
theorem unrecognized_source_error (config : Config) (event : Event)
    (h1 : event.source.sourceType ≠ EventSourceTypeUser)
    (h2 : event.source.sourceType ≠ EventSourceTypeRoom)
    (h3 : event.source.sourceType ≠ EventSourceTypeGroup) :
    SourceToSenderKey event.source = .error .unrecognizedEventSource
    ∧ EventToUserInput config event = .error .unrecognizedEventSource := by
  have hsk : SourceToSenderKey event.source = .error .unrecognizedEventSource := by
    simp [SourceToSenderKey, h1, h2, h3]
  refine ⟨hsk, ?_⟩
  simp only [EventToUserInput, hsk]

/-- Witness for C5 at the concrete source type "bot". -/
theorem unrecognized_source_error_witness :
    SourceToSenderKey
        (Event.source
          { eventType := EventTypeMessage, message := .textMessage "M1" "hello",
            postback := emptyPostback, replyToken := "RT", timestamp := 0,
            source := { sourceType := "bot", UserID := "U", RoomID := "", GroupID := "" } })
      = .error .unrecognizedEventSource
    ∧ EventToUserInput NewConfig
        { eventType := EventTypeMessage, message := .textMessage "M1" "hello",
          postback := emptyPostback, replyToken := "RT", timestamp := 0,
          source := { sourceType := "bot", UserID := "U", RoomID := "", GroupID := "" } }
      = .error .unrecognizedEventSource :=
  unrecognized_source_error NewConfig
    { eventType := EventTypeMessage, message := .textMessage "M1" "hello",
      postback := emptyPostback, replyToken := "RT", timestamp := 0,
      source := { sourceType := "bot", UserID := "U", RoomID := "", GroupID := "" } }
    (by decide) (by decide) (by decide)

/-- Claim C7: a string response built by NewStringResponse, pushed through
SendMessage's shape resolution, yields exactly one reply call carrying
exactly one message whose text is the original string. -/
theorem string_response_roundtrip (s replyToken : String) :
    SendMessage
        { destination := .stringDestination replyToken,
          content := (NewStringResponse s).Content }
      = some (replyToken, [NewTextMessage s]) := rfl

/-- Claim C8: through EventToUserInput, a location message yields a
LocationInput whose Message is the location's title, while image, video,
audio, and sticker messages yield inputs whose Message is empty. -/
theorem payload_messages (config : Config) (uid id title address rt pid sid : String)
    (lat lon : Float) (ts : Nat) :
    (EventToUserInput config
        { eventType := EventTypeMessage,
          message := .locationMessage id title address lat lon,
          postback := emptyPostback, replyToken := rt, timestamp := ts,
          source := userSource uid }
      = .ok (.location
          { ID := id,
            location := { Title := title, Address := address, Latitude := lat, Longitude := lon },
            sourceType := EventSourceTypeUser, senderKey := "user|" ++ uid,
            replyToken := rt, timestamp := ts })
      ∧ LocationInput.Message
          { ID := id,
            location := { Title := title, Address := address, Latitude := lat, Longitude := lon },
            sourceType := EventSourceTypeUser, senderKey := "user|" ++ uid,
            replyToken := rt, timestamp := ts } = title)
    ∧ (EventToUserInput config
        { eventType := EventTypeMessage, message := .imageMessage id,
          postback := emptyPostback, replyToken := rt, timestamp := ts,
          source := userSource uid }
      = .ok (.file
          { fileType := MessageTypeImage, ID := id, sourceType := EventSourceTypeUser,
            senderKey := "user|" ++ uid, replyToken := rt, timestamp := ts })
      ∧ FileInput.Message
          { fileType := MessageTypeImage, ID := id, sourceType := EventSourceTypeUser,
            senderKey := "user|" ++ uid, replyToken := rt, timestamp := ts } = "")
    ∧ (EventToUserInput config
        { eventType := EventTypeMessage, message := .videoMessage id,
          postback := emptyPostback, replyToken := rt, timestamp := ts,
          source := userSource uid }
      = .ok (.file
          { fileType := MessageTypeVideo, ID := id, sourceType := EventSourceTypeUser,
            senderKey := "user|" ++ uid, replyToken := rt, timestamp := ts }))
    ∧ (EventToUserInput config
        { eventType := EventTypeMessage, message := .audioMessage id,
          postback := emptyPostback, replyToken := rt, timestamp := ts,
          source := userSource uid }
      = .ok (.file
          { fileType := MessageTypeAudio, ID := id, sourceType := EventSourceTypeUser,
            senderKey := "user|" ++ uid, replyToken := rt, timestamp := ts }))
    ∧ (EventToUserInput config
        { eventType := EventTypeMessage, message := .stickerMessage id pid sid,
          postback := emptyPostback, replyToken := rt, timestamp := ts,
          source := userSource uid }
      = .ok (.sticker
          { ID := id, PackageID := pid, StickerID := sid, sourceType := EventSourceTypeUser,
            senderKey := "user|" ++ uid, replyToken := rt, timestamp := ts })
      ∧ StickerInput.Message
          { ID := id, PackageID := pid, StickerID := sid, sourceType := EventSourceTypeUser,
            senderKey := "user|" ++ uid, replyToken := rt, timestamp := ts } = "") :=
  ⟨⟨rfl, rfl⟩, ⟨rfl, rfl⟩, rfl, rfl, rfl, rfl⟩

/-- Claim C9: an option-supplied client short-circuits client construction:
NewAdapter succeeds with that client for every configuration, its result does
not depend on the external constructor at all, and the constructor runs (with
the configured credentials, its error wrapped) only when no option set a
client. -/
theorem with_client_skips_construction
    (f g : String → String → Except String Client) (config : Config) (client : Client) :
    NewAdapter f config [WithClient client]
        = .ok { client := some client, customHandler := false, config := config }
    ∧ NewAdapter f config [WithClient client] = NewAdapter g config [WithClient client]
    ∧ NewAdapter f config []
        = (match f config.ChannelSecret config.ChannelToken with
           | .error err => .error ("error on linebot.Client construction: " ++ err)
           | .ok c => .ok { client := some c, customHandler := false, config := config })
    ∧ NewAdapter f config [WithEventHandler]
        = (match f config.ChannelSecret config.ChannelToken with
           | .error err => .error ("error on linebot.Client construction: " ++ err)
           | .ok c => .ok { client := some c, customHandler := true, config := config }) := by
  refine ⟨rfl, rfl, ?_, ?_⟩ <;>
  · cases h : f config.ChannelSecret config.ChannelToken <;>
      simp [NewAdapter, applyOptions, WithEventHandler, h]

/-- Counterexample to claim C2 as stated: with help and abort commands both
".x", the text ".x" matches the non-empty abort trigger exactly, yet the
result is a Help-wrapped input and not an Abort-wrapped one. -/
theorem trigger_matching_counterexample :
    cfgSameTriggers.AbortCommand ≠ ""
    ∧ TrimSpace ".x" = cfgSameTriggers.AbortCommand
    ∧ EventToUserInput cfgSameTriggers (mkTextEvent "U1" "M1" ".x" "RT" 0)
        = .ok (NewHelpInput (.text
            { ID := "M1", sourceType := EventSourceTypeUser, senderKey := "user|U1",
              text := ".x", replyToken := "RT", timestamp := 0 }))
    ∧ isAbortInput (EventToUserInput cfgSameTriggers (mkTextEvent "U1" "M1" ".x" "RT" 0))
        = false :=
  ⟨by decide, by decide, rfl, rfl⟩

/-- Claim C2 (amended): for text and postback events the trimmed text is
compared with the triggers; a non-empty help trigger match yields a
Help-wrapped input; a non-empty abort trigger match yields an Abort-wrapped
input unless the help check already fired; an empty trigger disables the
corresponding check. -/
theorem trigger_matching (config : Config) (src : EventSource) (senderKey : String)
    (pb : Postback) (msg : LineMessage) (id text rt : String) (ts : Nat)
    (hsk : SourceToSenderKey src = .ok senderKey) :
    (config.HelpCommand ≠ "" → TrimSpace text = config.HelpCommand →
      EventToUserInput config
          { eventType := EventTypeMessage, message := .textMessage id text,
            postback := pb, replyToken := rt, timestamp := ts, source := src }
        = .ok (NewHelpInput (.text
            { ID := id, sourceType := src.sourceType, senderKey := senderKey,
              text := text, replyToken := rt, timestamp := ts })))
    ∧ (config.AbortCommand ≠ "" → TrimSpace text = config.AbortCommand →
       ¬(config.HelpCommand ≠ "" ∧ TrimSpace text = config.HelpCommand) →
      EventToUserInput config
          { eventType := EventTypeMessage, message := .textMessage id text,
            postback := pb, replyToken := rt, timestamp := ts, source := src }
        = .ok (NewAbortInput (.text
            { ID := id, sourceType := src.sourceType, senderKey := senderKey,
              text := text, replyToken := rt, timestamp := ts })))
    ∧ (config.HelpCommand = "" →
      isHelpInput (EventToUserInput config
          { eventType := EventTypeMessage, message := .textMessage id text,
            postback := pb, replyToken := rt, timestamp := ts, source := src }) = false)
    ∧ (config.AbortCommand = "" →
      isAbortInput (EventToUserInput config
          { eventType := EventTypeMessage, message := .textMessage id text,
            postback := pb, replyToken := rt, timestamp := ts, source := src }) = false)
    ∧ (config.HelpCommand ≠ "" → TrimSpace pb.Data = config.HelpCommand →
      isHelpInput (EventToUserInput config
          { eventType := EventTypePostback, message := msg,
            postback := pb, replyToken := rt, timestamp := ts, source := src }) = true)
    ∧ (config.AbortCommand ≠ "" → TrimSpace pb.Data = config.AbortCommand →
       ¬(config.HelpCommand ≠ "" ∧ TrimSpace pb.Data = config.HelpCommand) →
      isAbortInput (EventToUserInput config
          { eventType := EventTypePostback, message := msg,
            postback := pb, replyToken := rt, timestamp := ts, source := src }) = true)
    ∧ (config.HelpCommand = "" →
      isHelpInput (EventToUserInput config
          { eventType := EventTypePostback, message := msg,
            postback := pb, replyToken := rt, timestamp := ts, source := src }) = false)
    ∧ (config.AbortCommand = "" →
      isAbortInput (EventToUserInput config
          { eventType := EventTypePostback, message := msg,
            postback := pb, replyToken := rt, timestamp := ts, source := src }) = false) := by
  rw [eventToUserInput_text_eq config src senderKey pb id text rt ts hsk]
  rw [eventToUserInput_postback_eq config src senderKey msg pb rt ts hsk (by decide)]
  refine ⟨?_, ?_, ?_, ?_, ?_, ?_, ?_, ?_⟩
  · intro h1 h2
    rw [if_pos ⟨h1, h2⟩]
  · intro h1 h2 h3
    rw [if_neg h3, if_pos ⟨h1, h2⟩]
  · intro h
    rw [if_neg (fun hc => hc.1 h)]
    by_cases ha : config.AbortCommand ≠ "" ∧ TrimSpace text = config.AbortCommand
    · rw [if_pos ha]; rfl
    · rw [if_neg ha]; rfl
  · intro h
    by_cases hh : config.HelpCommand ≠ "" ∧ TrimSpace text = config.HelpCommand
    · rw [if_pos hh]; rfl
    · rw [if_neg hh, if_neg (fun hc => hc.1 h)]; rfl
  · intro h1 h2
    rw [if_pos ⟨h1, h2⟩]; rfl
  · intro h1 h2 h3
    rw [if_neg h3, if_pos ⟨h1, h2⟩]; rfl
  · intro h
    rw [if_neg (fun hc => hc.1 h)]
    by_cases ha : config.AbortCommand ≠ "" ∧ TrimSpace pb.Data = config.AbortCommand
    · rw [if_pos ha]; rfl
    · rw [if_neg ha]; rfl
  · intro h
    by_cases hh : config.HelpCommand ≠ "" ∧ TrimSpace pb.Data = config.HelpCommand
    · rw [if_pos hh]; rfl
    · rw [if_neg hh, if_neg (fun hc => hc.1 h)]; rfl

/-- Witness for the amended C2: concrete help trigger hit on ".help",
concrete abort trigger hit on ".abort", and disabled checks under the empty
trigger configuration, for a text and a postback event. -/
theorem trigger_matching_witness :
    EventToUserInput NewConfig
        { eventType := EventTypeMessage, message := .textMessage "M1" ".help",
          postback := emptyPostback, replyToken := "RT", timestamp := 0,
          source := userSource "U1" }
      = .ok (NewHelpInput (.text
          { ID := "M1", sourceType := (userSource "U1").sourceType, senderKey := "user|U1",
            text := ".help", replyToken := "RT", timestamp := 0 }))
    ∧ EventToUserInput NewConfig
        { eventType := EventTypeMessage, message := .textMessage "M1" ".abort",
          postback := emptyPostback, replyToken := "RT", timestamp := 0,
          source := userSource "U1" }
      = .ok (NewAbortInput (.text
          { ID := "M1", sourceType := (userSource "U1").sourceType, senderKey := "user|U1",
            text := ".abort", replyToken := "RT", timestamp := 0 }))
    ∧ isHelpInput (EventToUserInput cfgNoTriggers
        { eventType := EventTypeMessage, message := .textMessage "M1" " ",
          postback := emptyPostback, replyToken := "RT", timestamp := 0,
          source := userSource "U1" }) = false
    ∧ isAbortInput (EventToUserInput cfgNoTriggers
        { eventType := EventTypeMessage, message := .textMessage "M1" " ",
          postback := emptyPostback, replyToken := "RT", timestamp := 0,
          source := userSource "U1" }) = false
    ∧ isHelpInput (EventToUserInput NewConfig
        { eventType := EventTypePostback, message := .unknownMessage,
          postback := { Data := ".help", Params := none }, replyToken := "RT",
          timestamp := 0, source := userSource "U1" }) = true
    ∧ isAbortInput (EventToUserInput NewConfig
        { eventType := EventTypePostback, message := .unknownMessage,
          postback := { Data := ".abort", Params := none }, replyToken := "RT",
          timestamp := 0, source := userSource "U1" }) = true
    ∧ isHelpInput (EventToUserInput cfgNoTriggers
        { eventType := EventTypePostback, message := .unknownMessage,
          postback := { Data := " ", Params := none }, replyToken := "RT",
          timestamp := 0, source := userSource "U1" }) = false
    ∧ isAbortInput (EventToUserInput cfgNoTriggers
        { eventType := EventTypePostback, message := .unknownMessage,
          postback := { Data := " ", Params := none }, replyToken := "RT",
          timestamp := 0, source := userSource "U1" }) = false :=
  ⟨(trigger_matching NewConfig (userSource "U1") "user|U1" emptyPostback .unknownMessage
      "M1" ".help" "RT" 0 rfl).1 (by decide) (by decide),
   (trigger_matching NewConfig (userSource "U1") "user|U1" emptyPostback .unknownMessage
      "M1" ".abort" "RT" 0 rfl).2.1 (by decide) (by decide) (by decide),
   (trigger_matching cfgNoTriggers (userSource "U1") "user|U1" emptyPostback .unknownMessage
      "M1" " " "RT" 0 rfl).2.2.1 (by decide),
   (trigger_matching cfgNoTriggers (userSource "U1") "user|U1" emptyPostback .unknownMessage
      "M1" " " "RT" 0 rfl).2.2.2.1 (by decide),
   (trigger_matching NewConfig (userSource "U1") "user|U1" { Data := ".help", Params := none }
      .unknownMessage "M1" "" "RT" 0 rfl).2.2.2.2.1 (by decide) (by decide),
   (trigger_matching NewConfig (userSource "U1") "user|U1" { Data := ".abort", Params := none }
      .unknownMessage "M1" "" "RT" 0 rfl).2.2.2.2.2.1 (by decide) (by decide) (by decide),
   (trigger_matching cfgNoTriggers (userSource "U1") "user|U1" { Data := " ", Params := none }
      .unknownMessage "M1" "" "RT" 0 rfl).2.2.2.2.2.2.1 (by decide),
   (trigger_matching cfgNoTriggers (userSource "U1") "user|U1" { Data := " ", Params := none }
      .unknownMessage "M1" "" "RT" 0 rfl).2.2.2.2.2.2.2 (by decide)⟩

/-- Claim C6: when the trimmed text matches neither enabled trigger, the
result is the plain TextInput and its Message is the original text untouched
by trimming. -/
theorem plain_text_untrimmed (config : Config) (src : EventSource) (senderKey : String)
    (pb : Postback) (id text rt : String) (ts : Nat)
    (hsk : SourceToSenderKey src = .ok senderKey)
    (hhelp : config.HelpCommand = "" ∨ TrimSpace text ≠ config.HelpCommand)
    (habort : config.AbortCommand = "" ∨ TrimSpace text ≠ config.AbortCommand) :
    EventToUserInput config
        { eventType := EventTypeMessage, message := .textMessage id text,
          postback := pb, replyToken := rt, timestamp := ts, source := src }
      = .ok (.text
          { ID := id, sourceType := src.sourceType, senderKey := senderKey,
            text := text, replyToken := rt, timestamp := ts })
    ∧ TextInput.Message
        { ID := id, sourceType := src.sourceType, senderKey := senderKey,
          text := text, replyToken := rt, timestamp := ts } = text := by
  have nh : ¬(config.HelpCommand ≠ "" ∧ TrimSpace text = config.HelpCommand) := by
    rcases hhelp with h | h
    · exact fun hc => hc.1 h
    · exact fun hc => h hc.2
  have na : ¬(config.AbortCommand ≠ "" ∧ TrimSpace text = config.AbortCommand) := by
    rcases habort with h | h
    · exact fun hc => hc.1 h
    · exact fun hc => h hc.2
  rw [eventToUserInput_text_eq config src senderKey pb id text rt ts hsk,
    if_neg nh, if_neg na]
  exact ⟨rfl, rfl⟩

/-- Witness for C6 with the untrimmed text " hello " and the default
triggers. -/
theorem plain_text_untrimmed_witness :
    EventToUserInput NewConfig
        { eventType := EventTypeMessage, message := .textMessage "M1" " hello ",
          postback := emptyPostback, replyToken := "RT", timestamp := 0,
          source := userSource "U1" }
      = .ok (.text
          { ID := "M1", sourceType := (userSource "U1").sourceType, senderKey := "user|U1",
            text := " hello ", replyToken := "RT", timestamp := 0 })
    ∧ TextInput.Message
        { ID := "M1", sourceType := (userSource "U1").sourceType, senderKey := "user|U1",
          text := " hello ", replyToken := "RT", timestamp := 0 } = " hello " :=
  plain_text_untrimmed NewConfig (userSource "U1") "user|U1" emptyPostback
    "M1" " hello " "RT" 0 rfl (by decide) (by decide)

/-- Claim C10: when the help and abort commands are the same non-empty
string and the trimmed text matches it, the result is Help-wrapped and never
Abort-wrapped, for text and postback events alike. -/
theorem help_precedes_abort (config : Config) (src : EventSource) (senderKey : String)
    (pb : Postback) (msg : LineMessage) (id text rt : String) (ts : Nat)
    (hsk : SourceToSenderKey src = .ok senderKey)
    (hne : config.HelpCommand ≠ "") (heq : config.HelpCommand = config.AbortCommand)
    (ht : TrimSpace text = config.HelpCommand)
    (hpd : TrimSpace pb.Data = config.HelpCommand) :
    (isHelpInput (EventToUserInput config
        { eventType := EventTypeMessage, message := .textMessage id text,
          postback := pb, replyToken := rt, timestamp := ts, source := src }) = true
    ∧ isAbortInput (EventToUserInput config
        { eventType := EventTypeMessage, message := .textMessage id text,
          postback := pb, replyToken := rt, timestamp := ts, source := src }) = false)
    ∧ (isHelpInput (EventToUserInput config
        { eventType := EventTypePostback, message := msg,
          postback := pb, replyToken := rt, timestamp := ts, source := src }) = true
    ∧ isAbortInput (EventToUserInput config
        { eventType := EventTypePostback, message := msg,
          postback := pb, replyToken := rt, timestamp := ts, source := src }) = false) := by
  rw [eventToUserInput_text_eq config src senderKey pb id text rt ts hsk]
  rw [eventToUserInput_postback_eq config src senderKey msg pb rt ts hsk (by decide)]
  rw [if_pos ⟨hne, ht⟩, if_pos ⟨hne, hpd⟩]
  exact ⟨⟨rfl, rfl⟩, ⟨rfl, rfl⟩⟩

/-- Witness for C10: help and abort both ".x" and the message ".x". -/
theorem help_precedes_abort_witness :
    (isHelpInput (EventToUserInput cfgSameTriggers
        { eventType := EventTypeMessage, message := .textMessage "M1" ".x",
          postback := { Data := ".x", Params := none }, replyToken := "RT",
          timestamp := 0, source := userSource "U1" }) = true
    ∧ isAbortInput (EventToUserInput cfgSameTriggers
        { eventType := EventTypeMessage, message := .textMessage "M1" ".x",
          postback := { Data := ".x", Params := none }, replyToken := "RT",
          timestamp := 0, source := userSource "U1" }) = false)
    ∧ (isHelpInput (EventToUserInput cfgSameTriggers
        { eventType := EventTypePostback, message := .unknownMessage,
          postback := { Data := ".x", Params := none }, replyToken := "RT",
          timestamp := 0, source := userSource "U1" }) = true
    ∧ isAbortInput (EventToUserInput cfgSameTriggers
        { eventType := EventTypePostback, message := .unknownMessage,
          postback := { Data := ".x", Params := none }, replyToken := "RT",
          timestamp := 0, source := userSource "U1" }) = false) :=
  help_precedes_abort cfgSameTriggers (userSource "U1") "user|U1"
    { Data := ".x", Params := none } .unknownMessage "M1" ".x" "RT" 0 rfl
    (by decide) (by decide) (by decide) (by decide)

/-- Claim C3: the default event handler enqueues exactly the successful
conversions of the message and postback events of a batch, in batch order; a
failing event is logged and skipped without stopping the batch.  The second
and third parts run the concrete three-event batch with one unknown-type
message: two inputs are enqueued in order and one error is logged. -/
theorem batch_processing (config : Config) (enq : Input → Except String Unit)
    (events : List Event) :
    (defaultEventHandler config enq events).enqueued
      = events.filterMap (fun event =>
          if event.eventType = EventTypeMessage ∨ event.eventType = EventTypePostback then
            (EventToUserInput config event).toOption
          else none)
    ∧ (defaultEventHandler NewConfig enq [helloEvent, unknownEvent, worldEvent]).enqueued
      = [.text
           { ID := "M1", sourceType := EventSourceTypeUser, senderKey := "user|U1",
             text := "hello", replyToken := "RT1", timestamp := 1 },
         .text
           { ID := "M3", sourceType := EventSourceTypeUser, senderKey := "user|U1",
             text := "world", replyToken := "RT3", timestamp := 3 }]
    ∧ (defaultEventHandler NewConfig enq [helloEvent, unknownEvent, worldEvent]).loggedErrors
      = ["Error on event handling: unknown message type."] := by
  refine ⟨?_, rfl, rfl⟩
  induction events with
  | nil => rfl
  | cons e rest ih =>
    by_cases hty : e.eventType = EventTypeMessage ∨ e.eventType = EventTypePostback
    · cases hconv : EventToUserInput config e with
      | error err => simp [defaultEventHandler, hty, hconv, ih, Except.toOption]
      | ok input => simp [defaultEventHandler, hty, hconv, ih, Except.toOption]
    · simp [defaultEventHandler, hty, ih]

/-- Counterexample to claim C4 as stated: with an enqueue function that
fails with "queue closed" on a concrete one-event batch, the handler's
observable behavior is identical to the behavior under an always-succeeding
enqueue function, and nothing is logged or reported: the failure vanishes. -/
theorem enqueue_failure_counterexample :
    defaultEventHandler NewConfig (fun _ => .error "queue closed") [helloEvent]
      = defaultEventHandler NewConfig (fun _ => .ok ()) [helloEvent]
    ∧ (defaultEventHandler NewConfig (fun _ => .error "queue closed") [helloEvent]).loggedErrors
      = []
    ∧ (defaultEventHandler NewConfig (fun _ => .error "queue closed") [helloEvent]).enqueued.length
      = 1 :=
  ⟨rfl, rfl, rfl⟩

/-- Claim C4 (amended): the default event handler discards the enqueue
function's result entirely: its effects are the same for every enqueue
function, so an enqueue failure is neither raised to the HTTP handler nor
reported to any callback or log. -/
theorem enqueue_failure_ignored (config : Config)
    (enq enq' : Input → Except String Unit) (events : List Event) :
    defaultEventHandler config enq events = defaultEventHandler config enq' events := by
  induction events with
  | nil => rfl
  | cons e rest ih =>
    unfold defaultEventHandler
    rw [ih]

end Line
